import Mathlib

/-
Verification of the radio controller (`radio.py`) and its web control surface
(`radio_web.py`).

Shallow embedding conventions:
* Times are seconds; the source's floats are modelled as rationals (`ℚ`), which
  represent every constant in the program exactly.
* Python strings that need character-level computation are modelled as `List Char`.
* Fallible I/O is modelled by explicit outcome types (`FileRead`) or by
  environment records supplying the values the process would read.
* `random.randint` is modelled by an oracle choice: `randint lo hi choice`
  always lies in `[lo, hi]` and every value of the range is realised by some
  choice.
-/

/-- Main loop sleep, seconds (`POLL_INTERVAL = 0.1`). -/
def POLL_INTERVAL : ℚ := 0.1

/-- Ignore switch changes faster than this (`DEBOUNCE_TIME = 0.15`). -/
def DEBOUNCE_TIME : ℚ := 0.15

/-- Volume change per encoder click (`VOLUME_STEP = 4`). -/
def VOLUME_STEP : ℤ := 4

/-- Lower volume bound (`VOLUME_MIN = 0`). -/
def VOLUME_MIN : ℤ := 0

/-- Upper volume bound (`VOLUME_MAX = 100`). -/
def VOLUME_MAX : ℤ := 100

/-- Volume used when no valid saved state exists (`DEFAULT_VOLUME = 60`). -/
def DEFAULT_VOLUME : ℤ := 60

/-- Seconds between stream health checks (`WATCHDOG_INTERVAL = 10.0`). -/
def WATCHDOG_INTERVAL : ℚ := 10

/-- Wait this long before restarting a dead stream (`WATCHDOG_GRACE = 15.0`). -/
def WATCHDOG_GRACE : ℚ := 15

/-- Seconds between state file writes (`STATE_SAVE_INTERVAL = 5.0`). -/
def STATE_SAVE_INTERVAL : ℚ := 5

/-
JSON model for the persisted-state files.  JSON numbers other than integers are
irrelevant to validation (they fail the integer check exactly as strings do) and
are subsumed by the non-integer constructors.
-/

/-- A parsed JSON value, as produced by `json.load`. -/
inductive JVal where
  | jnull : JVal
  | jbool : Bool → JVal
  | jint : ℤ → JVal
  | jstr : String → JVal
  | jarr : List JVal → JVal
  | jobj : List (String × JVal) → JVal

/-- Python `dict.get` on a parsed JSON object (later duplicate keys overwrite
    earlier ones, so the reversed list is searched first-match). -/
def jget (l : List (String × JVal)) (k : String) : Option JVal :=
  List.lookup k l.reverse

/-- Python's `isinstance(v, int)` accepts `bool` as well (`True == 1`); this
    returns the integer value of a JSON value under that convention. -/
def pyInt? : JVal → Option ℤ
  | .jint n => some n
  | .jbool b => some (if b then 1 else 0)
  | _ => none

/-- The dict returned by `_validate_state` (radio.py:171-192). -/
structure PersistedState where
  volume : ℤ
  bank : ℤ
  station : ℤ
  timestamp : Option JVal

/-- `_validate_state(data)` (radio.py:171-192): all of volume/bank/station present
    and integers, volume in `[VOLUME_MIN, VOLUME_MAX]`, bank and station in `[-1, 9]`. -/
def validate_state (data : JVal) : Option PersistedState :=
  match data with
  | .jobj l =>
    match (jget l ("volume")).bind pyInt?, (jget l ("bank")).bind pyInt?,
          (jget l ("station")).bind pyInt? with
    | some volume, some bank, some station =>
      if VOLUME_MIN ≤ volume ∧ volume ≤ VOLUME_MAX then
        if -1 ≤ bank ∧ bank ≤ 9 ∧ -1 ≤ station ∧ station ≤ 9 then
          some ⟨volume, bank, station, jget l ("timestamp")⟩
        else none
      else none
    | _, _, _ => none
  | _ => none

/-- What reading one state file can yield: the path may be absent; opening or
    reading it may raise an `OSError`; its bytes may parse as UTF-8 but not as
    JSON (`json.JSONDecodeError`); its bytes may not be valid UTF-8, in which
    case `f.read()` inside `json.load` raises `UnicodeDecodeError`; or it holds
    a parsed JSON value.  `OSError` and `json.JSONDecodeError` are the two
    exception types `load_state`'s `except` clause (radio.py:212) catches;
    `UnicodeDecodeError` is a `ValueError` but not a `JSONDecodeError`, so it is
    NOT caught and escapes `load_state`. -/
inductive FileRead where
  | absent : FileRead
  | oserror : FileRead
  | badJson : FileRead
  | badUtf8 : FileRead
  | content : JVal → FileRead

/-- An exception escaping `load_state` uncaught. -/
inductive PyError where
  | unicodeDecodeError : PyError
deriving DecidableEq

/-- The two state files (`STATE_PATH`, `STATE_BACKUP_PATH`). -/
structure Disk where
  primary : FileRead
  backup : FileRead

/-- One iteration of the `for path in (STATE_PATH, STATE_BACKUP_PATH)` loop body
    of `load_state` (radio.py:195-215): a missing path is skipped (`continue`),
    an `OSError` or `json.JSONDecodeError` is caught, logged and skipped, a
    non-UTF-8 file raises `UnicodeDecodeError` out of the function, and a parsed
    value is validated. -/
def loadOne : FileRead → Except PyError (Option PersistedState)
  | .absent => .ok none
  | .oserror => .ok none
  | .badJson => .ok none
  | .badUtf8 => .error .unicodeDecodeError
  | .content j => .ok (validate_state j)

/-- `load_state()` (radio.py:195-215): first valid result of primary then
    backup, `None` when neither is valid; an uncaught exception from either
    iteration propagates (the backup is not consulted when the primary read
    raises). -/
def load_state (d : Disk) : Except PyError (Option PersistedState) :=
  match loadOne d.primary with
  | .error e => .error e
  | .ok (some v) => .ok (some v)
  | .ok none => loadOne d.backup

/-- The JSON object `save_state` writes (radio.py:156-168). -/
def statePayload (volume bank station timestamp : ℤ) : JVal :=
  .jobj [(("volume"), .jint volume), (("bank"), .jint bank),
         (("station"), .jint station), (("timestamp"), .jint timestamp)]

/-- `_atomic_write_json` (radio.py:133-153): the payload is written to a fresh
    temporary file, fsynced, and `os.replace`d over the target, so the file at
    the target path afterwards holds the complete new content. -/
def atomic_write_json (payload : JVal) : FileRead → FileRead :=
  fun _ => .content payload

/-- `save_state(volume, bank, station)` (radio.py:156-168) after both atomic
    writes completed successfully. -/
def save_state (volume bank station timestamp : ℤ) (d : Disk) : Disk :=
  let payload := statePayload volume bank station timestamp
  { primary := atomic_write_json payload d.primary,
    backup := atomic_write_json payload d.backup }

/-- Every disk state observable while `save_state` runs (kill points: before the
    primary replace, between the two replaces, after both).  Each path always
    holds either its old content or the complete new payload — the temporary
    file lives at a different path, so no partial file is ever visible at the
    state paths. -/
def saveCrashStates (volume bank station timestamp : ℤ) (d : Disk) : List Disk :=
  let payload := statePayload volume bank station timestamp
  [d,
   { primary := .content payload, backup := d.backup },
   { primary := .content payload, backup := .content payload }]

/-
Volume handling.
-/

/-- `clamp(val, lo, hi)` (radio.py:265-266). -/
def clamp (val lo hi : ℤ) : ℤ := max lo (min hi val)

/-- One pass of the volume-encoder block of the main loop (radio.py:571-584).
    `reading` is the encoder position for this tick; `none` models the `OSError`
    branch, which keeps the previous position.  State is
    `(volume, last_vol_pos)`.  `delta = last_vol_pos - vol_pos`. -/
def volTick (st : ℤ × ℤ) (reading : Option ℤ) : ℤ × ℤ :=
  let pos := match reading with | some p => p | none => st.2
  if pos ≠ st.2 then
    (clamp (st.1 + (st.2 - pos) * VOLUME_STEP) VOLUME_MIN VOLUME_MAX, pos)
  else st

/-- The volume-encoder block iterated over a sequence of encoder readings. -/
def volRun (st : ℤ × ℤ) : List (Option ℤ) → ℤ × ℤ
  | [] => st
  | r :: rs => volRun (volTick st r) rs

/-- Volume restoration at startup (radio.py:487-492): a saved volume in range is
    restored, otherwise `DEFAULT_VOLUME` is used. -/
def initVolume (saved : Option PersistedState) : ℤ :=
  match saved with
  | some st => if 0 ≤ st.volume ∧ st.volume ≤ VOLUME_MAX then st.volume else DEFAULT_VOLUME
  | none => DEFAULT_VOLUME

/-
Python-string utilities over `List Char` (kept character-level so that concrete
runs reduce in the kernel).
-/

/-- Python strings, modelled as character lists. -/
abbrev PyStr := List Char

/-- Whitespace for Python's `str.strip` / `str.split()`. -/
def isSpaceChar (c : Char) : Bool :=
  c = ' ' ∨ c = '\t' ∨ c = '\n' ∨ c = '\r' ∨ c.toNat = 11 ∨ c.toNat = 12

/-- Python `str.strip()`. -/
def pyStrip (l : PyStr) : PyStr :=
  ((l.dropWhile isSpaceChar).reverse.dropWhile isSpaceChar).reverse

/-- Python `str.split()` with no arguments: split on whitespace runs, dropping
    empty pieces. -/
def pySplit (l : PyStr) : List PyStr :=
  (List.splitOnP isSpaceChar l).filter (fun s => !s.isEmpty)

/-- ASCII lowercase of one character (Python `str.lower()` on the characters
    appearing here). -/
def lowerChar (c : Char) : Char :=
  if 65 ≤ c.toNat ∧ c.toNat ≤ 90 then Char.ofNat (c.toNat + 32) else c

/-- Python `str.lower()`. -/
def lowerStr (s : PyStr) : PyStr := s.map lowerChar

/-- Value of a nonempty digit string. -/
def digitsToNat (cs : List Char) : ℕ :=
  cs.foldl (fun a c => a * 10 + (c.toNat - 48)) 0

/-- Python `int(s)`: optional surrounding whitespace, optional sign, then
    decimal digits; anything else raises `ValueError` (modelled as `none`). -/
def pyIntOfStr (s : PyStr) : Option ℤ :=
  match pyStrip s with
  | '-' :: rest =>
    if !rest.isEmpty && rest.all Char.isDigit then some (-(digitsToNat rest : ℤ)) else none
  | '+' :: rest =>
    if !rest.isEmpty && rest.all Char.isDigit then some ((digitsToNat rest : ℤ)) else none
  | cs =>
    if !cs.isEmpty && cs.all Char.isDigit then some ((digitsToNat cs : ℤ)) else none

/-- Python's substring test `needle in hay`. -/
def containsSeq (needle : PyStr) : PyStr → Bool
  | [] => needle.isEmpty
  | c :: t => needle.isPrefixOf (c :: t) || containsSeq needle t

/-- Membership of a single character in a string. -/
def hasChar (c : Char) (l : PyStr) : Bool := l.contains c

/-- Python `str(n)` for an integer. -/
def intToStr (n : ℤ) : PyStr :=
  match n with
  | .ofNat m => Nat.toDigits 10 m
  | .negSucc m => '-' :: Nat.toDigits 10 (m + 1)

/-- Python string `<=` (lexicographic by code point). -/
def strLe : PyStr → PyStr → Bool
  | [], _ => true
  | _ :: _, [] => false
  | a :: as, b :: bs => if a < b then true else if b < a then false else strLe as bs

/-
Station catalog (`stations.yaml`), as `load_stations` and `get_station` use it.
-/

/-- A station entry: a YAML mapping with string values, looked up by key. -/
abbrev StationDict := List (PyStr × PyStr)

/-- Python `station.get(k)` on a station mapping. -/
def sget (d : StationDict) (k : PyStr) : Option PyStr := List.lookup k d.reverse

/-- Python `station.get(k, dflt)`. -/
def sgetD (d : StationDict) (k dflt : PyStr) : PyStr := (sget d k).getD dflt

/-- Python `a or b` where `a` is a `.get` result: `None` and `""` are falsy. -/
def pyOr (a : Option PyStr) (b : PyStr) : PyStr :=
  match a with
  | some s => if s.isEmpty then b else s
  | none => b

/-- A bank: its `stations` mapping.  A `none` station value models a YAML value
    that is not a mapping (rejected by the `isinstance(station, dict)` check). -/
structure BankDict where
  stations : List (ℤ × Option StationDict)

/-- The `banks` mapping of `stations.yaml` (`data.get("banks", {})` in
    `get_station`): a missing or non-mapping `banks` key behaves as the empty
    mapping, which the empty list represents, so the catalog is modelled at the
    banks level.  A `none` bank value models a YAML value that is not a
    mapping. -/
abbrev Catalog := List (ℤ × Option BankDict)

/-- `get_station(data, bank_id, station_id)` (radio.py:252-262): returns
    `(bank, station)` or `(None, None)`. -/
def get_station (data : Catalog) (bank_id station_id : ℤ) :
    Option BankDict × Option StationDict :=
  match List.lookup bank_id data.reverse with
  | some (some bank) =>
    match List.lookup station_id bank.stations.reverse with
    | some (some station) => (some bank, some station)
    | _ => (none, none)
  | _ => (none, none)

/-- Python truthiness of a `get_station` second component: `None` and the empty
    dict are falsy (`if get_station(...)[1]:`, `if stn and ...`). -/
def dictTruthy (o : Option StationDict) : Bool :=
  match o with
  | some d => !d.isEmpty
  | none => false

/-- The station's `type` field as the code normalises it:
    `station.get("type", "").strip().lower()`. -/
def stationType (st : StationDict) : PyStr :=
  lowerStr (pyStrip (sgetD st (("type").toList) []))

/-- The watchdog's stream test (radio.py:617):
    `stn and stn.get("type", "").strip().lower() == "stream"`. -/
def isStreamEntry (o : Option StationDict) : Bool :=
  match o with
  | some st => !st.isEmpty && (stationType st == ("stream").toList)
  | none => false

/-
Playback (radio.py:271-418).  Each `mpc(*args)` call is recorded as its argument
list; the functions return the list of backend calls they issue.  Filesystem
queries and `random.randint` draws are supplied by an environment record.
-/

/-- One `mpc` invocation, as its argument list. -/
abbrev MpcCmd := List PyStr

/-- Everything the playback functions read from outside: filesystem queries, the
    `mpc status` output `_seek_random` parses, and the `random.randint` draws. -/
structure RadioEnv where
  fsIsDir : PyStr → Bool
  fsExists : PyStr → Bool
  fsListing : PyStr → List PyStr
  statusOut : PyStr
  seekChoice : ℕ
  startChoice : ℕ

/-- `AUDIO_ROOT = Path("/home/radio/audio")`. -/
def AUDIO_ROOT : PyStr := ("/home/radio/audio").toList

/-- `AUDIO_EXTS` (radio.py:35). -/
def AUDIO_EXTS : List PyStr :=
  [(".mp3").toList, (".flac").toList, (".ogg").toList,
   (".m4a").toList, (".wav").toList, (".aac").toList]

/-- `random.randint(lo, hi)`: the draw selected by the oracle `choice`; always
    in `[lo, hi]` when `lo ≤ hi`, and every value of the range is realised by
    some choice. -/
def randint (lo hi : ℤ) (choice : ℕ) : ℤ := lo + (choice : ℤ) % (hi - lo + 1)

/-- `_resolve_path(raw)` (radio.py:327-332). -/
def resolvePath (raw : PyStr) : PyStr :=
  match pyStrip raw with
  | '/' :: r => '/' :: r
  | r => AUDIO_ROOT ++ ('/' :: r)

/-- `Path.name`: the final path component. -/
def pathName (p : PyStr) : PyStr :=
  ((List.splitOnP (fun c => c = '/') p).getLast?).getD []

/-- `Path.suffix`: the extension of the final component (empty when the final
    component has no dot, starts with its only dot, or ends with the dot). -/
def pathSuffix (p : PyStr) : PyStr :=
  let n := pathName p
  match n.reverse.findIdx? (fun c => c = '.') with
  | some j =>
    let i := n.length - 1 - j
    if 0 < i ∧ i + 1 < n.length then n.drop i else []
  | none => []

/-- The filter of `play_dir` (radio.py:308): `f.suffix.lower() in AUDIO_EXTS`. -/
def isAudioFile (p : PyStr) : Bool := AUDIO_EXTS.contains (lowerStr (pathSuffix p))

/-- `_mpd_relpath(path)` (radio.py:335-341): path relative to `AUDIO_ROOT`, or
    the path itself when it is not under the audio root (the logged fallback). -/
def mpdRelpath (p : PyStr) : PyStr :=
  if (AUDIO_ROOT ++ ['/']).isPrefixOf p then p.drop (AUDIO_ROOT.length + 1) else p

/-- The sort key of `play_dir` (radio.py:309): case-insensitive full path. -/
def pathLe (a b : PyStr) : Bool := strLe (lowerStr a) (lowerStr b)

/-- `play_stream(url)` (radio.py:271-276). -/
def play_stream (url : PyStr) : List MpcCmd :=
  [[("clear").toList], [("add").toList, url], [("play").toList]]

/-- A line `_seek_random` considers (radio.py:348): contains "/", ":" and "%". -/
def statusLine (l : PyStr) : Bool := hasChar '/' l && hasChar ':' l && hasChar '%' l

/-- A token `_seek_random` parses (radio.py:351): contains "/" and ":". -/
def seekToken (t : PyStr) : Bool := hasChar '/' t && hasChar ':' t

/-- Python `str.splitlines` on the `mpc status` output (newline-separated; a
    trailing empty piece cannot match `statusLine` and is harmless). -/
def splitLines (s : PyStr) : List PyStr := List.splitOnP (fun c => c = '\n') s

/-- The first parseable token of the first status line holding one
    (radio.py:347-351): later lines are only examined while no candidate line
    yielded a token. -/
def findSeekTok : List PyStr → Option PyStr
  | [] => none
  | l :: ls =>
    if statusLine l then
      match (pySplit l).find? seekToken with
      | some t => some t
      | none => findSeekTok ls
    else findSeekTok ls

/-- `token.split("/", 1)[1]`: everything after the first slash. -/
def afterFirstSlash (t : PyStr) : PyStr := (t.dropWhile (fun c => c ≠ '/')).drop 1

/-- The seek decision for a parsed total length (radio.py:361-363): only tracks
    longer than 10 seconds are seeked, to a uniform point in `[0, total-5]`. -/
def seekIfLong (total : ℤ) (choice : ℕ) : Option ℤ :=
  if 10 < total then some (randint 0 (total - 5) choice) else none

/-- The seek target `_seek_random` computes from the `mpc status` output
    (radio.py:344-366), `none` when no parseable duration is found or the track
    is too short (the `ValueError`/`IndexError` and early-return paths). -/
def seekTarget (statusOut : PyStr) (choice : ℕ) : Option ℤ :=
  match findSeekTok (splitLines statusOut) with
  | none => none
  | some t =>
    match (List.splitOnP (fun c => c = ':') (afterFirstSlash t)).mapM pyIntOfStr with
    | none => none
    | some [m, s] => seekIfLong (m * 60 + s) choice
    | some [h, m, s] => seekIfLong (h * 3600 + m * 60 + s) choice
    | some _ => none

/-- `_seek_random()` (radio.py:344-366): the status query plus the seek it may
    issue. -/
def seek_random (env : RadioEnv) : List MpcCmd :=
  [[("status").toList]] ++
    (match seekTarget env.statusOut env.seekChoice with
     | some target => [[("seek").toList, intToStr target]]
     | none => [])

/-- `play_file(path_str)` (radio.py:279-297): single file on loop, then a random
    seek into the track. -/
def play_file (env : RadioEnv) (path_str : PyStr) : List MpcCmd :=
  let resolved := resolvePath path_str
  if env.fsExists resolved then
    [[("clear").toList], [("repeat").toList, ("off").toList],
     [("single").toList, ("off").toList], [("random").toList, ("off").toList],
     [("add").toList, mpdRelpath resolved], [("repeat").toList, ("on").toList],
     [("play").toList]] ++ seek_random env
  else []

/-- The file enumeration of `play_dir` (radio.py:307-310): audio-extension files
    under the directory, sorted by case-insensitive full path. -/
def audioFilesSorted (env : RadioEnv) (resolved : PyStr) : List PyStr :=
  ((env.fsListing resolved).filter isAudioFile).mergeSort pathLe

/-- `play_dir(path_str)` (radio.py:300-324): enqueue the sorted catalog, then
    `play` at `random.randint(1, len(files))`. -/
def play_dir (env : RadioEnv) (path_str : PyStr) : List MpcCmd :=
  let resolved := resolvePath path_str
  if env.fsIsDir resolved then
    let files := audioFilesSorted env resolved
    if files.isEmpty then []
    else
      [[("clear").toList], [("repeat").toList, ("off").toList],
       [("single").toList, ("off").toList], [("random").toList, ("off").toList]]
      ++ files.map (fun f => [("add").toList, mpdRelpath f])
      ++ [[("play").toList, intToStr (randint 1 (files.length : ℤ) env.startChoice)]]
  else []

/-- Legacy type names routed to `play_file` (radio.py:405). -/
def legacyFileTypes : List PyStr :=
  [("mp3_loop_random_start").toList, ("file_loop_random_start").toList, ("file_loop").toList]

/-- Legacy type names routed to `play_dir` (radio.py:411). -/
def legacyDirTypes : List PyStr :=
  [("mp3_dir_random_start_then_in_order").toList,
   ("dir_random_start_then_in_order").toList, ("directory").toList]

/-- `play_station(data, bank_id, station_id)` (radio.py:369-418): the success
    flag it returns and the backend calls it issues. -/
def play_station (env : RadioEnv) (data : Catalog) (bank_id station_id : ℤ) :
    Bool × List MpcCmd :=
  match (get_station data bank_id station_id).2 with
  | none => (false, [])
  | some station =>
    let stype := stationType station
    if stype = ("stream").toList then
      let url := pyStrip (sgetD station (("url").toList) [])
      if url.isEmpty then (false, []) else (true, play_stream url)
    else if stype = ("file").toList then
      let path := pyStrip (sgetD station (("path").toList) [])
      if path.isEmpty then (false, []) else (true, play_file env path)
    else if stype = ("dir").toList then
      let path := pyStrip (sgetD station (("path").toList) [])
      if path.isEmpty then (false, []) else (true, play_dir env path)
    else if legacyFileTypes.contains stype then
      let path := pyStrip (pyOr (sget station (("path").toList))
        (sgetD station (("file").toList) []))
      if !path.isEmpty then (true, play_file env path) else (false, [])
    else if legacyDirTypes.contains stype then
      let path := pyStrip (pyOr (sget station (("path").toList))
        (pyOr (sget station (("directory").toList)) (sgetD station (("dir").toList) [])))
      if !path.isEmpty then (true, play_dir env path) else (false, [])
    else (false, [])

/-
Main-loop slices (radio.py:438-649).  The control-loop variables touched by the
claims are bundled into one state record; each slice below is the faithful
translation of one block of the loop body.  Backend calls issued inside the
blocks do not feed back into the control state and are omitted here.
-/

/-- The control-loop variables of `main` used by the switch and play/pause
    blocks. -/
structure LoopState where
  curBank : ℤ
  curStation : ℤ
  lastSwitchChange : ℚ
  playingBank : ℤ
  playingStation : ℤ
  playEnabled : Bool
  stopSince : ℚ
  dirty : Bool
deriving DecidableEq

/-- One tick's raw BCD switch readings. -/
structure SwitchSample where
  now : ℚ
  rawBank : ℤ
  rawStation : ℤ

/-- The raw-value filter (radio.py:544-545): an out-of-range raw value is
    replaced by the current stable value. -/
def newSel (raw cur : ℤ) : ℤ := if 0 ≤ raw ∧ raw ≤ 9 then raw else cur

/-- The switch block accepts a change (radio.py:548-549): some filtered value
    differs and `DEBOUNCE_TIME` has elapsed since the last accepted change. -/
def selAccepts (s : LoopState) (x : SwitchSample) : Prop :=
  (newSel x.rawBank s.curBank ≠ s.curBank ∨ newSel x.rawStation s.curStation ≠ s.curStation) ∧
  DEBOUNCE_TIME ≤ x.now - s.lastSwitchChange

instance (s : LoopState) (x : SwitchSample) : Decidable (selAccepts s x) :=
  inferInstanceAs (Decidable (_ ∧ _))

/-- The switch-change block of the main loop (radio.py:541-569): debounced
    selection update, and on an identity change to a configured station, the
    playback restart with its watchdog reset and dirty mark. -/
def selStep (data : Catalog) (s : LoopState) (x : SwitchSample) : LoopState :=
  let nb := newSel x.rawBank s.curBank
  let ns := newSel x.rawStation s.curStation
  if nb ≠ s.curBank ∨ ns ≠ s.curStation then
    if DEBOUNCE_TIME ≤ x.now - s.lastSwitchChange then
      let s1 := { s with lastSwitchChange := x.now, curBank := nb, curStation := ns }
      if dictTruthy (get_station data nb ns).2 = true then
        if nb ≠ s.playingBank ∨ ns ≠ s.playingStation then
          { s1 with playingBank := nb, playingStation := ns, stopSince := 0, dirty := true }
        else s1
      else s1
    else s
  else s

/-- The switch block iterated over a sample sequence. -/
def selRun (data : Catalog) (s : LoopState) : List SwitchSample → LoopState
  | [] => s
  | x :: xs => selRun data (selStep data s x) xs

/-- The times of the accepted selection changes along a sample sequence. -/
def acceptedTimes (data : Catalog) (s : LoopState) : List SwitchSample → List ℚ
  | [] => []
  | x :: xs =>
    if selAccepts s x then x.now :: acceptedTimes data (selStep data s x) xs
    else acceptedTimes data (selStep data s x) xs

/-- The play/pause-switch block of the main loop (radio.py:596-611): on the
    toggle-on edge with a selection differing from the playback identity, the
    configured station is started and the identity updated; otherwise `play` or
    `pause` alone is issued. -/
def playSwitchStep (data : Catalog) (s : LoopState) (new_play : Bool) : LoopState :=
  if new_play ≠ s.playEnabled then
    let s1 := { s with playEnabled := new_play }
    if new_play = true then
      if s.curBank ≠ s.playingBank ∨ s.curStation ≠ s.playingStation then
        if dictTruthy (get_station data s.curBank s.curStation).2 = true then
          { s1 with playingBank := s.curBank, playingStation := s.curStation }
        else s1
      else s1
    else s1
  else s

/-- `read_bcd(pins)` (radio.py:233-240): active-low bits weighted 1/2/4/8. -/
def read_bcd (bit0_low bit1_low bit2_low bit3_low : Bool) : ℤ :=
  (if bit0_low then 1 else 0) + (if bit1_low then 2 else 0) +
  (if bit2_low then 4 else 0) + (if bit3_low then 8 else 0)

/-- The startup BCD normalisation (radio.py:477-480): a raw value above 9 is
    replaced by 0. -/
def initSel (raw : ℤ) : ℤ := if 9 < raw then 0 else raw

/-- `playing_bank = -1` at startup (radio.py:482). -/
def INITIAL_PLAYING_BANK : ℤ := -1

/-- `playing_station = -1` at startup (radio.py:483). -/
def INITIAL_PLAYING_STATION : ℤ := -1

/-
Stream watchdog (radio.py:613-629).
-/

/-- `watchdog_last_check` and `watchdog_stop_since` (radio.py:510-511);
    `stopSince = 0` is the code's "no stall observed" sentinel. -/
structure WdState where
  lastCheck : ℚ
  stopSince : ℚ
deriving DecidableEq

/-- What one watchdog check reads: the monotonic time, the play switch, and the
    `mpc status` output. -/
structure WdTick where
  now : ℚ
  playEnabled : Bool
  status : PyStr

/-- The healthy test (radio.py:619): the status output mentions `[playing]` or
    `[paused]`. -/
def playingOrPaused (status : PyStr) : Bool :=
  containsSeq (("[playing]").toList) status || containsSeq (("[paused]").toList) status

/-- The stream-watchdog block of the main loop (radio.py:613-629), for a fixed
    catalog and playback identity.  Returns the new state and whether a restart
    (`play_station` re-run) was triggered. -/
def wdStep (data : Catalog) (pb ps : ℤ) (s : WdState) (t : WdTick) : WdState × Bool :=
  if t.playEnabled = true ∧ WATCHDOG_INTERVAL ≤ t.now - s.lastCheck then
    if isStreamEntry (get_station data pb ps).2 = true then
      if playingOrPaused t.status = false then
        if s.stopSince = 0 then ({ lastCheck := t.now, stopSince := t.now }, false)
        else if WATCHDOG_GRACE ≤ t.now - s.stopSince then
          ({ lastCheck := t.now, stopSince := 0 }, true)
        else ({ lastCheck := t.now, stopSince := s.stopSince }, false)
      else ({ lastCheck := t.now, stopSince := 0 }, false)
    else ({ lastCheck := t.now, stopSince := s.stopSince }, false)
  else (s, false)

/-- The watchdog block iterated over a tick sequence. -/
def wdRun (data : Catalog) (pb ps : ℤ) (s : WdState) : List WdTick → WdState
  | [] => s
  | t :: ts => wdRun data pb ps (wdStep data pb ps s t).1 ts

/-- The check that sets `watchdog_stop_since` (radio.py:620-622): the watchdog
    ran, the identity is a stream, the status is neither playing nor paused, and
    no stall was pending. -/
def wdSets (data : Catalog) (pb ps : ℤ) (s : WdState) (t : WdTick) : Prop :=
  t.playEnabled = true ∧ WATCHDOG_INTERVAL ≤ t.now - s.lastCheck ∧
  isStreamEntry (get_station data pb ps).2 = true ∧
  playingOrPaused t.status = false ∧ s.stopSince = 0

/-
Web control surface: the `/command` dispatch of `radio_web.py` (lines 568-619).
-/

/-- What one `/command` POST resolves to: a backend invocation, a 400
    `command_failed` rejection, or a 403 `forbidden_command` rejection. -/
inductive CommandAction where
  | playStationAct : ℤ → ℤ → CommandAction
  | mpcPlay : CommandAction
  | mpcPause : CommandAction
  | mpcVolume : ℤ → CommandAction
  | badRequest : CommandAction
  | forbidden : CommandAction
deriving DecidableEq

/-- The HTTP status the handler sends before any backend call, when it rejects. -/
def commandHttpStatus : CommandAction → Option ℕ
  | .badRequest => some 400
  | .forbidden => some 403
  | _ => none

/-- The `error_type` field of a rejection. -/
def commandErrorType : CommandAction → Option PyStr
  | .badRequest => some (("command_failed").toList)
  | .forbidden => some (("forbidden_command").toList)
  | _ => none

/-- Whether the action reaches the backend (`play_station` or `mpc`). -/
def invokesBackend : CommandAction → Bool
  | .playStationAct _ _ => true
  | .mpcPlay => true
  | .mpcPause => true
  | .mpcVolume _ => true
  | .badRequest => false
  | .forbidden => false

/-- The `/command` dispatch (radio_web.py:568-619): strip the command, route by
    prefix or exact match, parse integer arguments, reject everything else with
    403 `forbidden_command` (the explicit `sudo shutdown -h now` branch and the
    final `else` both do so). -/
def commandRoute (raw : PyStr) : CommandAction :=
  let command := pyStrip raw
  if (("radio-play").toList).isPrefixOf command then
    match pySplit command with
    | [_, p1, p2] =>
      match pyIntOfStr p1, pyIntOfStr p2 with
      | some b, some s => .playStationAct b s
      | _, _ => .badRequest
    | _ => .badRequest
  else if command == ("mpc play").toList then .mpcPlay
  else if command == ("mpc pause").toList then .mpcPause
  else if (("mpc volume ").toList).isPrefixOf command then
    match pySplit command with
    | [_, _, p2] =>
      match pyIntOfStr p2 with
      | some n => .mpcVolume (max 0 (min 100 n))
      | none => .badRequest
    | _ => .badRequest
  else .forbidden

/-- The command whitelist as claim C10 words it (a spec-side characterisation,
    for comparison with `commandRoute`): exactly `radio-play <bank> <station>`,
    `mpc play`, `mpc pause`, `mpc volume <n>` with integer parameters. -/
def specCommandWhitelist (command : PyStr) : Bool :=
  match pySplit command with
  | [a, b] => a == ("mpc").toList && (b == ("play").toList || b == ("pause").toList)
  | [a, b, c] =>
    (a == ("radio-play").toList && (pyIntOfStr b).isSome && (pyIntOfStr c).isSome) ||
    (a == ("mpc").toList && b == ("volume").toList && (pyIntOfStr c).isSome)
  | _ => false

/-
Concrete inputs used by witnesses and counterexamples.
-/

/-- A state file claiming volume 150 (the spec's rejection example). -/
def overVolume150 : JVal :=
  .jobj [(("volume"), .jint 150), (("bank"), .jint 2),
         (("station"), .jint 3), (("timestamp"), .jint 9)]

/-- A valid state file used as the backup behind `overVolume150`. -/
def goodBackup : JVal :=
  .jobj [(("volume"), .jint 55), (("bank"), .jint 2),
         (("station"), .jint 3), (("timestamp"), .jint 5)]

/-- A loop state with stable selection (0,0) and an old accepted change. -/
def selCexState : LoopState := ⟨0, 0, 0, -1, -1, true, 0, false⟩

/-- A catalog with one stream station at bank 0, station 0. -/
def streamCat : Catalog :=
  [(0, some ⟨[(0, some [((("type").toList), ("stream").toList),
                        ((("url").toList), ("http://radio.example/s").toList)])]⟩)]

/-- The spec's dir example: bank 0, station 1 is a `dir` station at `jazz/`. -/
def dirExampleCatalog : Catalog :=
  [(0, some ⟨[(1, some [((("type").toList), ("dir").toList),
                        ((("path").toList), ("jazz").toList)])]⟩)]

/-- A filesystem with three audio files under the jazz directory, listed
    unsorted, and `startChoice = 1` (so `randint 1 3` draws 2). -/
def dirExampleEnv : RadioEnv where
  fsIsDir := fun p => p == ("/home/radio/audio/jazz").toList
  fsExists := fun _ => false
  fsListing := fun _ =>
    [("/home/radio/audio/jazz/b.mp3").toList,
     ("/home/radio/audio/jazz/a.mp3").toList,
     ("/home/radio/audio/jazz/c.mp3").toList]
  statusOut := []
  seekChoice := 0
  startChoice := 1

/-- A catalog with one configured station at bank 1, station 1. -/
def toggleCexCatalog : Catalog :=
  [(1, some ⟨[(1, some [((("type").toList), ("stream").toList),
                        ((("url").toList), ("http://radio.example/t").toList)])]⟩)]

/-- A loop state paused at startup-like identity (-1, -1) with selection (1, 1),
    a pending stall timestamp, and a clean dirty flag. -/
def toggleCexState : LoopState := ⟨1, 1, 0, -1, -1, false, 7, false⟩

/-
Theorems.
-/

theorem clamp_bounds (val lo hi : ℤ) (h : lo ≤ hi) :
    lo ≤ clamp val lo hi ∧ clamp val lo hi ≤ hi :=
  ⟨le_max_left _ _, max_le h (min_le_left _ _)⟩

theorem validate_statePayload (v b s ts : ℤ)
    (hv : 0 ≤ v ∧ v ≤ 100) (hb : -1 ≤ b ∧ b ≤ 9) (hs : -1 ≤ s ∧ s ≤ 9) :
    validate_state (statePayload v b s ts) = some ⟨v, b, s, some (.jint ts)⟩ := by
  show (if VOLUME_MIN ≤ v ∧ v ≤ VOLUME_MAX then
      if -1 ≤ b ∧ b ≤ 9 ∧ -1 ≤ s ∧ s ≤ 9 then
        some (⟨v, b, s, some (.jint ts)⟩ : PersistedState)
      else none
    else none) = some ⟨v, b, s, some (.jint ts)⟩
  rw [if_pos ⟨hv.1, hv.2⟩, if_pos ⟨hb.1, hb.2, hs.1, hs.2⟩]

/-- C1: for every volume `v ∈ [0,100]` and bank, station `∈ [-1,9]`, once
    `save_state v b s` completes successfully and no later save occurs,
    `load_state` raises nothing and returns a PersistedState whose volume, bank
    and station equal `v`, `b`, `s`; and at every kill point during the save
    each state path holds either its old content or the complete new payload
    (each replacement is an atomic rename of a fully written temporary file),
    so `load_state` never observes a partial file. -/
theorem save_load_roundtrip (v b s ts : ℤ) (d : Disk)
    (hv : 0 ≤ v ∧ v ≤ 100) (hb : -1 ≤ b ∧ b ≤ 9) (hs : -1 ≤ s ∧ s ≤ 9) :
    load_state (save_state v b s ts d) = .ok (some ⟨v, b, s, some (.jint ts)⟩) ∧
    ∀ dc ∈ saveCrashStates v b s ts d,
      (dc.primary = d.primary ∨ dc.primary = .content (statePayload v b s ts)) ∧
      (dc.backup = d.backup ∨ dc.backup = .content (statePayload v b s ts)) := by
  constructor
  · unfold load_state loadOne save_state atomic_write_json
    dsimp only
    rw [validate_statePayload v b s ts hv hb hs]
  · intro dc hdc
    simp only [saveCrashStates, List.mem_cons, List.not_mem_nil, or_false] at hdc
    rcases hdc with h | h | h <;> subst h
    · exact ⟨Or.inl rfl, Or.inl rfl⟩
    · exact ⟨Or.inr rfl, Or.inl rfl⟩
    · exact ⟨Or.inr rfl, Or.inr rfl⟩

/-- C1 witness: the concrete round trip at volume 60, bank 1, station 2. -/
theorem save_load_roundtrip_witness :
    load_state (save_state 60 1 2 0 ⟨.absent, .absent⟩) =
      .ok (some ⟨60, 1, 2, some (.jint 0)⟩) :=
  (save_load_roundtrip 60 1 2 0 ⟨.absent, .absent⟩
    (by decide) (by decide) (by decide)).1

theorem validate_state_ranges (j : JVal) (r : PersistedState)
    (h : validate_state j = some r) :
    0 ≤ r.volume ∧ r.volume ≤ 100 ∧ -1 ≤ r.bank ∧ r.bank ≤ 9 ∧
    -1 ≤ r.station ∧ r.station ≤ 9 := by
  unfold validate_state at h
  repeat' split at h
  any_goals exact Option.noConfusion h
  cases h
  simp only [VOLUME_MIN, VOLUME_MAX] at *
  omega

theorem loadOne_ranges (f : FileRead) (r : PersistedState)
    (h : loadOne f = .ok (some r)) :
    0 ≤ r.volume ∧ r.volume ≤ 100 ∧ -1 ≤ r.bank ∧ r.bank ≤ 9 ∧
    -1 ≤ r.station ∧ r.station ≤ 9 := by
  cases f with
  | absent => exact absurd h (by simp [loadOne])
  | oserror => exact absurd h (by simp [loadOne])
  | badJson => exact absurd h (by simp [loadOne])
  | badUtf8 => exact absurd h (by simp [loadOne])
  | content j =>
    simp only [loadOne, Except.ok.injEq] at h
    exact validate_state_ranges j r h

/-- For the error kinds `load_state` does catch, the claimed behaviour holds:
    absent, OSError and JSON-decode failures are skipped without raising, the
    primary file is tried before the backup, the first valid result is
    returned, and every returned result passed range validation. -/
theorem load_state_caught_order_fallback :
    (loadOne .absent = .ok none ∧ loadOne .oserror = .ok none ∧
     loadOne .badJson = .ok none) ∧
    (∀ (d : Disk) (r : PersistedState), loadOne d.primary = .ok (some r) →
      load_state d = .ok (some r)) ∧
    (∀ d : Disk, loadOne d.primary = .ok none →
      load_state d = loadOne d.backup) ∧
    (∀ (d : Disk) (r : PersistedState), load_state d = .ok (some r) →
      0 ≤ r.volume ∧ r.volume ≤ 100 ∧ -1 ≤ r.bank ∧ r.bank ≤ 9 ∧
      -1 ≤ r.station ∧ r.station ≤ 9) := by
  refine ⟨⟨rfl, rfl, rfl⟩, ?_, ?_, ?_⟩
  · intro d r h
    unfold load_state
    rw [h]
  · intro d h
    unfold load_state
    rw [h]
  · intro d r h
    unfold load_state at h
    rcases hp : loadOne d.primary with e | v
    · rw [hp] at h
      exact Except.noConfusion h
    · rw [hp] at h
      rcases v with _ | v0
      · exact loadOne_ranges d.backup r h
      · have h1 : some v0 = some r := Except.ok.inj h
        have h2 : v0 = r := Option.some.inj h1
        subst h2
        exact loadOne_ranges d.primary v0 hp

/-- C2 (code bug): `load_state`'s `except` clause (radio.py:212) catches only
    `json.JSONDecodeError` and `OSError`, so a state file whose bytes are not
    valid UTF-8 makes `json.load` raise `UnicodeDecodeError`, which escapes
    `load_state` — even when a valid backup exists, and even from the backup
    iteration after an invalid primary — instead of the claimed "return the
    first valid result or None, never raise".  For the caught error kinds the
    claimed order, fallback and validation do hold, and the volume-150 example
    is rejected with fallback to the backup. -/
theorem load_state_uncaught_unicode_error :
    load_state ⟨.badUtf8, .content goodBackup⟩ = .error .unicodeDecodeError ∧
    load_state ⟨.content overVolume150, .badUtf8⟩ = .error .unicodeDecodeError ∧
    (∀ o : Option PersistedState,
      (Except.error PyError.unicodeDecodeError :
        Except PyError (Option PersistedState)) ≠ .ok o) ∧
    load_state ⟨.absent, .absent⟩ = .ok none ∧
    load_state ⟨.oserror, .badJson⟩ = .ok none ∧
    validate_state overVolume150 = none ∧
    load_state ⟨.content overVolume150, .content goodBackup⟩ =
      .ok (some ⟨55, 2, 3, some (.jint 5)⟩) :=
  ⟨rfl, rfl, fun _ h => Except.noConfusion h, rfl, rfl, rfl, rfl⟩

theorem volTick_bounds (st : ℤ × ℤ) (r : Option ℤ)
    (h : 0 ≤ st.1 ∧ st.1 ≤ 100) :
    0 ≤ (volTick st r).1 ∧ (volTick st r).1 ≤ 100 := by
  rcases st with ⟨v, lp⟩
  rcases r with _ | p
  · simpa [volTick] using h
  · by_cases hp : p ≠ lp
    · have hstep : volTick (v, lp) (some p) =
          (clamp (v + (lp - p) * VOLUME_STEP) VOLUME_MIN VOLUME_MAX, p) := by
        simp [volTick, hp]
      rw [hstep]
      exact clamp_bounds _ _ _ (by norm_num [VOLUME_MIN, VOLUME_MAX])
    · push_neg at hp
      subst hp
      simpa [volTick] using h

/-- C3: the startup volume is in `[0,100]`; whenever the encoder position moves,
    the new volume is `clamp(old - delta * VOLUME_STEP, 0, 100)` with `delta`
    the signed position change (the code's `last_vol_pos - vol_pos` inversion is
    exactly this sign flip); and after any sequence of encoder readings of any
    magnitude or sign the volume stays in `[0,100]`. -/
theorem volume_always_clamped :
    (∀ saved, 0 ≤ initVolume saved ∧ initVolume saved ≤ 100) ∧
    (∀ v lp pos : ℤ, pos ≠ lp →
      (volTick (v, lp) (some pos)).1 =
        clamp (v - (pos - lp) * VOLUME_STEP) VOLUME_MIN VOLUME_MAX) ∧
    (∀ (st : ℤ × ℤ) (rs : List (Option ℤ)), 0 ≤ st.1 → st.1 ≤ 100 →
      0 ≤ (volRun st rs).1 ∧ (volRun st rs).1 ≤ 100) := by
  refine ⟨?_, ?_, ?_⟩
  · intro saved
    rcases saved with _ | st
    · norm_num [initVolume, DEFAULT_VOLUME]
    · simp only [initVolume]
      split
      next h => exact ⟨h.1, by simpa [VOLUME_MAX] using h.2⟩
      next => norm_num [DEFAULT_VOLUME]
  · intro v lp pos hne
    have hstep : volTick (v, lp) (some pos) =
        (clamp (v + (lp - pos) * VOLUME_STEP) VOLUME_MIN VOLUME_MAX, pos) := by
      simp [volTick, hne]
    rw [hstep]
    show clamp (v + (lp - pos) * VOLUME_STEP) VOLUME_MIN VOLUME_MAX = _
    congr 1
    ring
  · intro st rs
    induction rs generalizing st with
    | nil => intro h1 h2; exact ⟨h1, h2⟩
    | cons r rs ih =>
      intro h1 h2
      have hb := volTick_bounds st r ⟨h1, h2⟩
      exact ih (volTick st r) hb.1 hb.2

/-- C3 witness: one click up from volume 50, then a huge negative swing, both
    stay clamped; the formula instance at `delta = 3`. -/
theorem volume_always_clamped_witness :
    ((volTick (50, 0) (some 3)).1 =
      clamp (50 - (3 - 0) * VOLUME_STEP) VOLUME_MIN VOLUME_MAX) ∧
    (0 ≤ (volRun (50, 0) [some 3, some (-1000)]).1 ∧
     (volRun (50, 0) [some 3, some (-1000)]).1 ≤ 100) :=
  ⟨volume_always_clamped.2.1 50 0 3 (by decide),
   volume_always_clamped.2.2 (50, 0) [some 3, some (-1000)] (by decide) (by decide)⟩

theorem selStep_rejected (data : Catalog) (s : LoopState) (x : SwitchSample)
    (h : ¬ selAccepts s x) : selStep data s x = s := by
  by_cases h1 : (newSel x.rawBank s.curBank ≠ s.curBank ∨
      newSel x.rawStation s.curStation ≠ s.curStation)
  · have h2 : ¬ DEBOUNCE_TIME ≤ x.now - s.lastSwitchChange := fun h2 => h ⟨h1, h2⟩
    simp only [selStep]
    rw [if_pos h1, if_neg h2]
  · simp only [selStep]
    rw [if_neg h1]

theorem selStep_accepted_time (data : Catalog) (s : LoopState) (x : SwitchSample)
    (h : selAccepts s x) : (selStep data s x).lastSwitchChange = x.now := by
  simp only [selStep]
  rw [if_pos h.1, if_pos h.2]
  split
  · split <;> rfl
  · rfl

theorem acceptedTimes_head (data : Catalog) :
    ∀ (xs : List SwitchSample) (s : LoopState) (u : ℚ),
      (acceptedTimes data s xs).head? = some u →
      DEBOUNCE_TIME ≤ u - s.lastSwitchChange := by
  intro xs
  induction xs with
  | nil => intro s u h; exact Option.noConfusion h
  | cons x xs ih =>
    intro s u h
    by_cases hx : selAccepts s x
    · rw [acceptedTimes, if_pos hx] at h
      cases h
      exact hx.2
    · rw [acceptedTimes, if_neg hx] at h
      have hs := ih (selStep data s x) u h
      rwa [selStep_rejected data s x hx] at hs

theorem acceptedTimes_chain (data : Catalog) :
    ∀ (xs : List SwitchSample) (s : LoopState),
      List.Chain' (fun a b => DEBOUNCE_TIME ≤ b - a) (acceptedTimes data s xs) := by
  intro xs
  induction xs with
  | nil => intro s; simp [acceptedTimes]
  | cons x xs ih =>
    intro s
    by_cases hx : selAccepts s x
    · rw [acceptedTimes, if_pos hx, List.chain'_cons']
      refine ⟨?_, ih _⟩
      intro u hu
      have h := acceptedTimes_head data xs (selStep data s x) u hu
      rwa [selStep_accepted_time data s x hx] at h
    · rw [acceptedTimes, if_neg hx]
      exact ih _

/-- C4: along any sequence of raw switch samples, consecutive accepted selection
    changes are at least `DEBOUNCE_TIME` apart; a sample that is rejected or
    unchanged alters nothing — in particular the debounce timer is not reset —
    and the timer is set to the sample time exactly when a change is accepted. -/
theorem debounce_lockout :
    (∀ (data : Catalog) (s : LoopState) (xs : List SwitchSample),
      List.Chain' (fun a b => DEBOUNCE_TIME ≤ b - a) (acceptedTimes data s xs)) ∧
    (∀ (data : Catalog) (s : LoopState) (x : SwitchSample),
      ¬ selAccepts s x → selStep data s x = s) ∧
    (∀ (data : Catalog) (s : LoopState) (x : SwitchSample),
      selAccepts s x → (selStep data s x).lastSwitchChange = x.now) :=
  ⟨fun data s xs => acceptedTimes_chain data xs s,
   fun data s x h => selStep_rejected data s x h,
   fun data s x h => selStep_accepted_time data s x h⟩

/-- C4 witness: a raw sample equal to the stable selection changes nothing. -/
theorem debounce_lockout_witness :
    selStep [] selCexState ⟨5, 0, 0⟩ = selCexState :=
  debounce_lockout.2.1 [] selCexState ⟨5, 0, 0⟩
    (by norm_num [selAccepts, newSel, selCexState])

/-- C5 counterexample: at startup, the malformed BCD reading 12 (pins low on the
    4- and 8-weighted bits) is normalised to selection 0, not to the -1 "no
    valid reading yet" sentinel the claim describes; -1 only initialises the
    playback identity. -/
theorem startup_bcd_counterexample :
    initSel (read_bcd false false true true) = 0 ∧ (0 : ℤ) ≠ -1 := by decide

theorem selStep_curBank_invalid (data : Catalog) (s : LoopState) (x : SwitchSample)
    (h : ¬ (0 ≤ x.rawBank ∧ x.rawBank ≤ 9)) :
    (selStep data s x).curBank = s.curBank := by
  have hb : newSel x.rawBank s.curBank = s.curBank := by
    unfold newSel
    rw [if_neg h]
  simp only [selStep, hb]
  split
  · split
    · split
      · split <;> rfl
      · rfl
    · rfl
  · rfl

theorem selStep_curStation_invalid (data : Catalog) (s : LoopState) (x : SwitchSample)
    (h : ¬ (0 ≤ x.rawStation ∧ x.rawStation ≤ 9)) :
    (selStep data s x).curStation = s.curStation := by
  have hs : newSel x.rawStation s.curStation = s.curStation := by
    unfold newSel
    rw [if_neg h]
  simp only [selStep, hs]
  split
  · split
    · split
      · split <;> rfl
      · rfl
    · rfl
  · rfl

/-- C5 (amended): in the main loop, every raw BCD value outside `[0,9]` is
    replaced by the current stable value, so the debounced selection component
    is unchanged and malformed reads never produce spurious station changes.
    At startup, however, an out-of-range read is normalised to 0 — not to a -1
    sentinel; the -1 sentinel is the initial playback identity instead. -/
theorem bcd_out_of_range_unchanged :
    (∀ raw cur : ℤ, ¬ (0 ≤ raw ∧ raw ≤ 9) → newSel raw cur = cur) ∧
    (∀ (data : Catalog) (s : LoopState) (x : SwitchSample),
      ¬ (0 ≤ x.rawBank ∧ x.rawBank ≤ 9) → (selStep data s x).curBank = s.curBank) ∧
    (∀ (data : Catalog) (s : LoopState) (x : SwitchSample),
      ¬ (0 ≤ x.rawStation ∧ x.rawStation ≤ 9) →
        (selStep data s x).curStation = s.curStation) ∧
    (∀ raw : ℤ, 9 < raw → initSel raw = 0) ∧
    (INITIAL_PLAYING_BANK = -1 ∧ INITIAL_PLAYING_STATION = -1) := by
  refine ⟨?_, ?_, ?_, ?_, rfl, rfl⟩
  · intro raw cur h
    unfold newSel
    rw [if_neg h]
  · exact selStep_curBank_invalid
  · exact selStep_curStation_invalid
  · intro raw h
    unfold initSel
    rw [if_pos h]

/-- C5 witness: the malformed raw bank reading 12 leaves the selection at its
    prior value in the main loop. -/
theorem bcd_out_of_range_unchanged_witness :
    (selStep [] selCexState ⟨5, 12, 0⟩).curBank = selCexState.curBank :=
  bcd_out_of_range_unchanged.2.1 [] selCexState ⟨5, 12, 0⟩ (by decide)

/-- C6 counterexample: with `DEBOUNCE_TIME = 0.15`, the station moves 0→1 at
    t = 1 s and back to 0 at t = 1.05 s, so the candidate value 1 is raw-present
    for only 0.05 s < DEBOUNCE_TIME; yet the change to 1 is accepted immediately
    at t = 1 and remains the stable selection — the code requires no persistence
    before accepting, contrary to the claim. -/
theorem debounce_no_persistence_counterexample :
    ((21 : ℚ) / 20 - 1 < DEBOUNCE_TIME) ∧
    acceptedTimes [] selCexState [⟨1, 0, 1⟩, ⟨21 / 20, 0, 0⟩] = [1] ∧
    (selRun [] selCexState [⟨1, 0, 1⟩, ⟨21 / 20, 0, 0⟩]).curStation = 1 := by
  have hacc : selAccepts selCexState ⟨1, 0, 1⟩ := by
    constructor
    · right
      norm_num [newSel, selCexState]
    · norm_num [selCexState, DEBOUNCE_TIME]
  have hstep : selStep [] selCexState ⟨1, 0, 1⟩ = ⟨0, 1, 1, -1, -1, true, 0, false⟩ := by
    simp only [selStep]
    rw [if_pos hacc.1, if_pos hacc.2]
    norm_num [newSel, selCexState, dictTruthy, get_station]
  have hrej : ¬ selAccepts (⟨0, 1, 1, -1, -1, true, 0, false⟩ : LoopState) ⟨21 / 20, 0, 0⟩ := by
    intro hc
    have := hc.2
    norm_num [DEBOUNCE_TIME] at this
  refine ⟨by norm_num [DEBOUNCE_TIME], ?_, ?_⟩
  · rw [acceptedTimes, if_pos hacc, hstep, acceptedTimes, if_neg hrej, acceptedTimes]
  · rw [selRun, hstep, selRun, selStep_rejected [] _ _ hrej, selRun]

/-- C6 (amended): a differing raw value is accepted at the first sample taken at
    least `DEBOUNCE_TIME` after the last accepted change — immediately, with no
    persistence requirement — and any further candidate within `DEBOUNCE_TIME`
    of that acceptance is rejected.  In the spec's example the first move is
    accepted at once and the second move 0.05–0.1 s later is ignored. -/
theorem debounce_immediate_accept
    (data : Catalog) (s : LoopState) (x y : SwitchSample)
    (hdiff : newSel x.rawBank s.curBank ≠ s.curBank ∨
      newSel x.rawStation s.curStation ≠ s.curStation)
    (helapsed : DEBOUNCE_TIME ≤ x.now - s.lastSwitchChange)
    (hy : y.now - x.now < DEBOUNCE_TIME) :
    (selStep data s x).curBank = newSel x.rawBank s.curBank ∧
    (selStep data s x).curStation = newSel x.rawStation s.curStation ∧
    (selStep data s x).lastSwitchChange = x.now ∧
    selStep data (selStep data s x) y = selStep data s x := by
  have hcur : (selStep data s x).curBank = newSel x.rawBank s.curBank ∧
      (selStep data s x).curStation = newSel x.rawStation s.curStation := by
    simp only [selStep]
    rw [if_pos hdiff, if_pos helapsed]
    split
    · split <;> exact ⟨rfl, rfl⟩
    · exact ⟨rfl, rfl⟩
  have htime := selStep_accepted_time data s x ⟨hdiff, helapsed⟩
  refine ⟨hcur.1, hcur.2, htime, ?_⟩
  apply selStep_rejected
  intro hc
  have h2 := hc.2
  rw [htime] at h2
  exact absurd h2 (not_le.mpr hy)

/-- C6 witness: the amended behaviour at the counterexample's sample times. -/
theorem debounce_immediate_accept_witness :
    (selStep [] selCexState ⟨1, 0, 1⟩).curStation = newSel 1 0 ∧
    selStep [] (selStep [] selCexState ⟨1, 0, 1⟩) ⟨21 / 20, 0, 0⟩ =
      selStep [] selCexState ⟨1, 0, 1⟩ :=
  ⟨(debounce_immediate_accept [] selCexState ⟨1, 0, 1⟩ ⟨21 / 20, 0, 0⟩
      (by right; norm_num [newSel, selCexState])
      (by norm_num [selCexState, DEBOUNCE_TIME])
      (by norm_num [DEBOUNCE_TIME])).2.1,
   (debounce_immediate_accept [] selCexState ⟨1, 0, 1⟩ ⟨21 / 20, 0, 0⟩
      (by right; norm_num [newSel, selCexState])
      (by norm_num [selCexState, DEBOUNCE_TIME])
      (by norm_num [DEBOUNCE_TIME])).2.2.2⟩

theorem wdRun_single (data : Catalog) (pb ps : ℤ) (s : WdState) (t : WdTick) :
    wdRun data pb ps s [t] = (wdStep data pb ps s t).1 := rfl

theorem wdRun_split (data : Catalog) (pb ps : ℤ) :
    ∀ (l1 l2 : List WdTick) (s : WdState),
      wdRun data pb ps s (l1 ++ l2) = wdRun data pb ps (wdRun data pb ps s l1) l2 := by
  intro l1
  induction l1 with
  | nil => intro l2 s; rfl
  | cons t ts ih =>
    intro l2 s
    rw [List.cons_append, wdRun, wdRun]
    exact ih l2 _

theorem wdStep_inactive (data : Catalog) (pb ps : ℤ) (s : WdState) (t : WdTick)
    (h : ¬ (t.playEnabled = true ∧ WATCHDOG_INTERVAL ≤ t.now - s.lastCheck)) :
    wdStep data pb ps s t = (s, false) := by
  unfold wdStep
  rw [if_neg h]

theorem wdStep_notStream (data : Catalog) (pb ps : ℤ) (s : WdState) (t : WdTick)
    (hc : t.playEnabled = true ∧ WATCHDOG_INTERVAL ≤ t.now - s.lastCheck)
    (h2 : ¬ isStreamEntry (get_station data pb ps).2 = true) :
    wdStep data pb ps s t = ({ lastCheck := t.now, stopSince := s.stopSince }, false) := by
  unfold wdStep
  rw [if_pos hc, if_neg h2]

theorem wdStep_healthy (data : Catalog) (pb ps : ℤ) (s : WdState) (t : WdTick)
    (hc : t.playEnabled = true ∧ WATCHDOG_INTERVAL ≤ t.now - s.lastCheck)
    (h2 : isStreamEntry (get_station data pb ps).2 = true)
    (h3 : ¬ playingOrPaused t.status = false) :
    wdStep data pb ps s t = ({ lastCheck := t.now, stopSince := 0 }, false) := by
  unfold wdStep
  rw [if_pos hc, if_pos h2, if_neg h3]

theorem wdStep_sets (data : Catalog) (pb ps : ℤ) (s : WdState) (t : WdTick)
    (h : wdSets data pb ps s t) :
    wdStep data pb ps s t = ({ lastCheck := t.now, stopSince := t.now }, false) := by
  obtain ⟨h1, h2, h3, h4, h5⟩ := h
  unfold wdStep
  rw [if_pos ⟨h1, h2⟩, if_pos h3, if_pos h4, if_pos h5]

theorem wdStep_pending (data : Catalog) (pb ps : ℤ) (s : WdState) (t : WdTick)
    (hc : t.playEnabled = true ∧ WATCHDOG_INTERVAL ≤ t.now - s.lastCheck)
    (hstream : isStreamEntry (get_station data pb ps).2 = true)
    (hstat : playingOrPaused t.status = false)
    (hzero : ¬ s.stopSince = 0)
    (hgrace : ¬ WATCHDOG_GRACE ≤ t.now - s.stopSince) :
    wdStep data pb ps s t = ({ lastCheck := t.now, stopSince := s.stopSince }, false) := by
  unfold wdStep
  rw [if_pos hc, if_pos hstream, if_pos hstat, if_neg hzero, if_neg hgrace]

theorem wdStep_restart (data : Catalog) (pb ps : ℤ) (s : WdState) (t : WdTick)
    (h : (wdStep data pb ps s t).2 = true) :
    (t.playEnabled = true ∧ WATCHDOG_INTERVAL ≤ t.now - s.lastCheck) ∧
    isStreamEntry (get_station data pb ps).2 = true ∧
    playingOrPaused t.status = false ∧ s.stopSince ≠ 0 ∧
    WATCHDOG_GRACE ≤ t.now - s.stopSince ∧
    (wdStep data pb ps s t).1.stopSince = 0 := by
  unfold wdStep at h ⊢
  split at h
  next hc =>
    split at h
    next hstream =>
      split at h
      next hstat =>
        split at h
        next hzero => simp at h
        next hzero =>
          split at h
          next hgrace =>
            rw [if_pos hc, if_pos hstream, if_pos hstat, if_neg hzero, if_pos hgrace]
            exact ⟨hc, hstream, hstat, hzero, hgrace, rfl⟩
          next hgrace => simp at h
      next hstat => simp at h
    next hstream => simp at h
  next hc => simp at h

theorem wdRun_stopSince_origin (data : Catalog) (pb ps : ℤ) :
    ∀ (ts : List WdTick) (s0 : WdState), s0.stopSince = 0 →
      (wdRun data pb ps s0 ts).stopSince = 0 ∨
      ∃ pre t post, ts = pre ++ t :: post ∧
        wdSets data pb ps (wdRun data pb ps s0 pre) t ∧
        (wdRun data pb ps s0 ts).stopSince = t.now := by
  intro ts
  induction ts using List.reverseRecOn with
  | nil => intro s0 h0; left; exact h0
  | append_singleton ts u ih =>
    intro s0 h0
    rw [wdRun_split data pb ps ts [u] s0]
    set S := wdRun data pb ps s0 ts with hS
    by_cases hc : (u.playEnabled = true ∧ WATCHDOG_INTERVAL ≤ u.now - S.lastCheck)
    · by_cases hstream : isStreamEntry (get_station data pb ps).2 = true
      · by_cases hstat : playingOrPaused u.status = false
        · by_cases hzero : S.stopSince = 0
          · right
            refine ⟨ts, u, [], by simp, ⟨hc.1, hc.2, hstream, hstat, hzero⟩, ?_⟩
            rw [wdRun_single, wdStep_sets data pb ps S u ⟨hc.1, hc.2, hstream, hstat, hzero⟩]
          · by_cases hgrace : WATCHDOG_GRACE ≤ u.now - S.stopSince
            · left
              have hstep : wdStep data pb ps S u =
                  ({ lastCheck := u.now, stopSince := 0 }, true) := by
                unfold wdStep
                rw [if_pos hc, if_pos hstream, if_pos hstat, if_neg hzero, if_pos hgrace]
              rw [wdRun_single, hstep]
            · have hstep := wdStep_pending data pb ps S u hc hstream hstat hzero hgrace
              rcases ih s0 h0 with h | ⟨pre, t, post, hts, hset, hval⟩
              · exact absurd h hzero
              · right
                refine ⟨pre, t, post ++ [u], by rw [hts]; simp, hset, ?_⟩
                rw [wdRun_single, hstep]
                exact hval
        · left
          rw [wdRun_single, wdStep_healthy data pb ps S u hc hstream hstat]
      · have hstep := wdStep_notStream data pb ps S u hc hstream
        rcases ih s0 h0 with h | ⟨pre, t, post, hts, hset, hval⟩
        · left
          rw [wdRun_single, hstep]
          exact h
        · right
          refine ⟨pre, t, post ++ [u], by rw [hts]; simp, hset, ?_⟩
          rw [wdRun_single, hstep]
          exact hval
    · have hstep := wdStep_inactive data pb ps S u hc
      rcases ih s0 h0 with h | ⟨pre, t, post, hts, hset, hval⟩
      · left
        rw [wdRun_single, hstep]
        exact h
      · right
        refine ⟨pre, t, post ++ [u], by rw [hts]; simp, hset, ?_⟩
        rw [wdRun_single, hstep]
        exact hval

theorem wd_restart_after_grace (data : Catalog) (pb ps : ℤ)
    (ts : List WdTick) (u : WdTick) (s0 : WdState)
    (h0 : s0.stopSince = 0)
    (hres : (wdStep data pb ps (wdRun data pb ps s0 ts) u).2 = true) :
    ∃ pre t post, ts = pre ++ t :: post ∧
      wdSets data pb ps (wdRun data pb ps s0 pre) t ∧
      (wdRun data pb ps s0 ts).stopSince = t.now ∧
      WATCHDOG_GRACE ≤ u.now - t.now := by
  obtain ⟨hc, hstream, hstat, hzero, hgrace, hclear⟩ :=
    wdStep_restart data pb ps (wdRun data pb ps s0 ts) u hres
  rcases wdRun_stopSince_origin data pb ps ts s0 h0 with h | ⟨pre, t, post, hts, hset, hval⟩
  · exact absurd h hzero
  · refine ⟨pre, t, post, hts, hset, hval, ?_⟩
    rw [← hval]
    exact hgrace

theorem wd_no_restart_storm (data : Catalog) (pb ps : ℤ) (s0 : WdState)
    (pre : List WdTick) (a : WdTick) (mid : List WdTick) (b : WdTick)
    (_h0 : s0.stopSince = 0)
    (hmono : ∀ t ∈ mid, a.now ≤ t.now)
    (ha : (wdStep data pb ps (wdRun data pb ps s0 pre) a).2 = true)
    (hb : (wdStep data pb ps (wdRun data pb ps s0 (pre ++ a :: mid)) b).2 = true) :
    WATCHDOG_GRACE ≤ b.now - a.now := by
  obtain ⟨_, _, _, _, _, hclear⟩ := wdStep_restart data pb ps _ a ha
  have hsplit : wdRun data pb ps s0 (pre ++ a :: mid) =
      wdRun data pb ps (wdStep data pb ps (wdRun data pb ps s0 pre) a).1 mid := by
    rw [wdRun_split data pb ps pre (a :: mid) s0]
    rfl
  rw [hsplit] at hb
  obtain ⟨pre2, t, post2, hts, hset, hval, hgrace⟩ :=
    wd_restart_after_grace data pb ps mid b _ hclear hb
  have hta : a.now ≤ t.now := hmono t (by rw [hts]; simp)
  linarith

/-- C7: a restart only fires when a check at least `WATCHDOG_GRACE` earlier
    first observed the stall and set `stoppedSince` (which still holds that
    time); two restarts are always at least `WATCHDOG_GRACE` apart for
    nondecreasing tick times; a restart requires play enabled, the interval
    elapsed, a stream-kind playback identity and a stalled status, and clears
    `stoppedSince`; a playing/paused status clears `stoppedSince`
    unconditionally; and the watchdog does nothing when play is disabled, the
    interval has not elapsed, or the identity does not resolve to a stream. -/
theorem watchdog_grace_discipline :
    (∀ (data : Catalog) (pb ps : ℤ) (ts : List WdTick) (u : WdTick) (s0 : WdState),
      s0.stopSince = 0 →
      (wdStep data pb ps (wdRun data pb ps s0 ts) u).2 = true →
      ∃ pre t post, ts = pre ++ t :: post ∧
        wdSets data pb ps (wdRun data pb ps s0 pre) t ∧
        (wdRun data pb ps s0 ts).stopSince = t.now ∧
        WATCHDOG_GRACE ≤ u.now - t.now) ∧
    (∀ (data : Catalog) (pb ps : ℤ) (s0 : WdState) (pre : List WdTick) (a : WdTick)
        (mid : List WdTick) (b : WdTick),
      s0.stopSince = 0 → (∀ t ∈ mid, a.now ≤ t.now) →
      (wdStep data pb ps (wdRun data pb ps s0 pre) a).2 = true →
      (wdStep data pb ps (wdRun data pb ps s0 (pre ++ a :: mid)) b).2 = true →
      WATCHDOG_GRACE ≤ b.now - a.now) ∧
    (∀ (data : Catalog) (pb ps : ℤ) (s : WdState) (t : WdTick),
      (wdStep data pb ps s t).2 = true →
      (t.playEnabled = true ∧ WATCHDOG_INTERVAL ≤ t.now - s.lastCheck) ∧
      isStreamEntry (get_station data pb ps).2 = true ∧
      playingOrPaused t.status = false ∧ s.stopSince ≠ 0 ∧
      WATCHDOG_GRACE ≤ t.now - s.stopSince ∧
      (wdStep data pb ps s t).1.stopSince = 0) ∧
    (∀ (data : Catalog) (pb ps : ℤ) (s : WdState) (t : WdTick),
      (t.playEnabled = true ∧ WATCHDOG_INTERVAL ≤ t.now - s.lastCheck) →
      isStreamEntry (get_station data pb ps).2 = true →
      ¬ playingOrPaused t.status = false →
      wdStep data pb ps s t = ({ lastCheck := t.now, stopSince := 0 }, false)) ∧
    (∀ (data : Catalog) (pb ps : ℤ) (s : WdState) (t : WdTick),
      ¬ (t.playEnabled = true ∧ WATCHDOG_INTERVAL ≤ t.now - s.lastCheck) →
      wdStep data pb ps s t = (s, false)) ∧
    (∀ (data : Catalog) (pb ps : ℤ) (s : WdState) (t : WdTick),
      (t.playEnabled = true ∧ WATCHDOG_INTERVAL ≤ t.now - s.lastCheck) →
      ¬ isStreamEntry (get_station data pb ps).2 = true →
      wdStep data pb ps s t = ({ lastCheck := t.now, stopSince := s.stopSince }, false)) :=
  ⟨wd_restart_after_grace, wd_no_restart_storm, wdStep_restart,
   wdStep_healthy, wdStep_inactive, wdStep_notStream⟩

/-- C7 witness: a stream stalls at t = 10 s (stoppedSince set), and the restart
    at t = 26 s happens 16 s ≥ WATCHDOG_GRACE after that first observation. -/
theorem watchdog_grace_discipline_witness :
    ∃ pre t post, ([⟨10, true, []⟩] : List WdTick) = pre ++ t :: post ∧
      wdSets streamCat 0 0 (wdRun streamCat 0 0 ⟨0, 0⟩ pre) t ∧
      (wdRun streamCat 0 0 ⟨0, 0⟩ [⟨10, true, []⟩]).stopSince = t.now ∧
      WATCHDOG_GRACE ≤ (26 : ℚ) - t.now := by
  have hset1 : wdSets streamCat 0 0 ⟨0, 0⟩ ⟨10, true, []⟩ :=
    ⟨rfl, by norm_num [WATCHDOG_INTERVAL], by decide, by decide, rfl⟩
  have h1 : wdRun streamCat 0 0 ⟨0, 0⟩ [⟨10, true, []⟩] = ⟨10, 10⟩ := by
    rw [wdRun_single, wdStep_sets streamCat 0 0 ⟨0, 0⟩ ⟨10, true, []⟩ hset1]
  exact watchdog_grace_discipline.1 streamCat 0 0 [⟨10, true, []⟩] ⟨26, true, []⟩ ⟨0, 0⟩ rfl
    (by
      rw [h1]
      unfold wdStep
      rw [if_pos ⟨rfl, by norm_num [WATCHDOG_INTERVAL]⟩, if_pos (by decide),
        if_pos (by decide), if_neg (by norm_num), if_pos (by norm_num [WATCHDOG_GRACE])])

theorem strLe_cons (x y : Char) (xs ys : PyStr) :
    strLe (x :: xs) (y :: ys) =
      if x < y then true else if y < x then false else strLe xs ys := rfl

theorem strLe_cons_iff (x y : Char) (xs ys : PyStr) :
    strLe (x :: xs) (y :: ys) = true ↔ (x < y ∨ (x = y ∧ strLe xs ys = true)) := by
  rw [strLe_cons]
  by_cases hxy : x < y
  · simp [hxy]
  · by_cases hyx : y < x
    · have hne : x ≠ y := fun h => absurd (h ▸ hyx) (lt_irrefl x)
      simp [hxy, hyx, hne]
    · have heq : x = y := le_antisymm (not_lt.mp hyx) (not_lt.mp hxy)
      simp [hxy, hyx, heq]

theorem strLe_total : ∀ a b : PyStr, (strLe a b || strLe b a) = true := by
  intro a
  induction a with
  | nil => intro b; rfl
  | cons x xs ih =>
    intro b
    cases b with
    | nil => rfl
    | cons y ys =>
      rw [strLe_cons, strLe_cons]
      rcases lt_trichotomy x y with hxy | hxy | hxy
      · simp [hxy]
      · subst hxy
        rw [if_neg (lt_irrefl x), if_neg (lt_irrefl x), if_neg (lt_irrefl x),
          if_neg (lt_irrefl x)]
        exact ih ys
      · simp [hxy, lt_asymm hxy]

theorem strLe_trans : ∀ a b c : PyStr,
    strLe a b = true → strLe b c = true → strLe a c = true := by
  intro a
  induction a with
  | nil => intro b c _ _; rfl
  | cons x xs ih =>
    intro b c h1 h2
    cases b with
    | nil => exact absurd h1 (by simp [strLe])
    | cons y ys =>
      cases c with
      | nil => exact absurd h2 (by simp [strLe])
      | cons z zs =>
        rw [strLe_cons_iff] at h1 h2 ⊢
        rcases h1 with h1 | ⟨rfl, h1⟩
        · rcases h2 with h2 | ⟨rfl, h2⟩
          · exact Or.inl (lt_trans h1 h2)
          · exact Or.inl h1
        · rcases h2 with h2 | ⟨rfl, h2⟩
          · exact Or.inl h2
          · exact Or.inr ⟨rfl, ih ys zs h1 h2⟩

theorem pathLe_trans (a b c : PyStr) (h1 : pathLe a b = true) (h2 : pathLe b c = true) :
    pathLe a c = true :=
  strLe_trans _ _ _ h1 h2

theorem pathLe_total (a b : PyStr) : (pathLe a b || pathLe b a) = true :=
  strLe_total _ _

theorem randint_mem (lo hi : ℤ) (choice : ℕ) (h : lo ≤ hi) :
    lo ≤ randint lo hi choice ∧ randint lo hi choice ≤ hi := by
  unfold randint
  have hpos : 0 < hi - lo + 1 := by omega
  have h1 : 0 ≤ (choice : ℤ) % (hi - lo + 1) := Int.emod_nonneg _ (by omega)
  have h2 : (choice : ℤ) % (hi - lo + 1) < hi - lo + 1 := Int.emod_lt_of_pos _ hpos
  omega

theorem randint_surj (lo hi k : ℤ) (h1 : lo ≤ k) (h2 : k ≤ hi) :
    ∃ choice : ℕ, randint lo hi choice = k := by
  refine ⟨(k - lo).toNat, ?_⟩
  unfold randint
  rw [Int.toNat_of_nonneg (by omega), Int.emod_eq_of_lt (by omega) (by omega)]
  omega

/-- C8: for a `dir`-kind station whose directory holds `n ≥ 1` audio files,
    `play_station` succeeds and issues exactly
    `clear, repeat off, single off, random off`, one `add` per file in
    case-insensitive sorted order (a permutation of the enumerated audio files),
    then `play` at the 1-based index `randint 1 n`, which always lies in
    `[1, n]` and attains every value of that range for some draw — subsequent
    tracks play in the sorted order, since `random` is off and the queue is the
    sorted catalog. -/
theorem play_dir_sorted_uniform (env : RadioEnv) (data : Catalog)
    (bank_id station_id : ℤ) (station : StationDict)
    (resolved : PyStr) (files : List PyStr) (n : ℕ)
    (hst : (get_station data bank_id station_id).2 = some station)
    (hty : stationType station = ("dir").toList)
    (hpath : (pyStrip (sgetD station (("path").toList) [])).isEmpty = false)
    (hres : resolved = resolvePath (pyStrip (sgetD station (("path").toList) [])))
    (hdir : env.fsIsDir resolved = true)
    (hfiles : files = audioFilesSorted env resolved)
    (hn : ((env.fsListing resolved).filter isAudioFile).length = n)
    (hpos : 1 ≤ n) :
    play_station env data bank_id station_id =
      (true,
       [[("clear").toList], [("repeat").toList, ("off").toList],
        [("single").toList, ("off").toList], [("random").toList, ("off").toList]]
       ++ files.map (fun f => [("add").toList, mpdRelpath f])
       ++ [[("play").toList, intToStr (randint 1 (n : ℤ) env.startChoice)]]) ∧
    files.Perm ((env.fsListing resolved).filter isAudioFile) ∧
    List.Pairwise (fun a b => pathLe a b = true) files ∧
    files.length = n ∧
    1 ≤ randint 1 (n : ℤ) env.startChoice ∧
    randint 1 (n : ℤ) env.startChoice ≤ (n : ℤ) ∧
    (∀ k : ℤ, 1 ≤ k → k ≤ (n : ℤ) → ∃ choice : ℕ, randint 1 (n : ℤ) choice = k) := by
  have hperm : files.Perm ((env.fsListing resolved).filter isAudioFile) := by
    rw [hfiles]
    exact List.mergeSort_perm _ _
  have hlen : files.length = n := by
    rw [hperm.length_eq, hn]
  have hsorted : List.Pairwise (fun a b => pathLe a b = true) files := by
    rw [hfiles]
    exact List.sorted_mergeSort pathLe_trans pathLe_total _
  have hne : files.isEmpty = false := by
    cases hfe : files with
    | nil => rw [hfe] at hlen; simp at hlen; omega
    | cons f fs => simp
  have hnn : (1 : ℤ) ≤ (n : ℤ) := by exact_mod_cast hpos
  have hdirEq : play_dir env (pyStrip (sgetD station (("path").toList) [])) =
      [[("clear").toList], [("repeat").toList, ("off").toList],
       [("single").toList, ("off").toList], [("random").toList, ("off").toList]]
      ++ files.map (fun f => [("add").toList, mpdRelpath f])
      ++ [[("play").toList, intToStr (randint 1 (n : ℤ) env.startChoice)]] := by
    unfold play_dir
    dsimp only
    rw [← hres, if_pos hdir, ← hfiles,
      if_neg (by rw [hne]; exact Bool.false_ne_true), hlen]
  have hmain : play_station env data bank_id station_id =
      (true, play_dir env (pyStrip (sgetD station (("path").toList) []))) := by
    unfold play_station
    rw [hst]
    dsimp only
    rw [if_neg (by rw [hty]; decide), if_neg (by rw [hty]; decide), if_pos hty,
      if_neg (by rw [hpath]; exact Bool.false_ne_true)]
  refine ⟨?_, hperm, hsorted, hlen, (randint_mem 1 (n : ℤ) env.startChoice hnn).1,
    (randint_mem 1 (n : ℤ) env.startChoice hnn).2, fun k hk1 hk2 => randint_surj 1 _ k hk1 hk2⟩
  rw [hmain, hdirEq]

/-- C8 witness: the spec's example — three audio files under `jazz/`, draw 2. -/
theorem play_dir_sorted_uniform_witness :
    play_station dirExampleEnv dirExampleCatalog 0 1 =
      (true,
       [[("clear").toList], [("repeat").toList, ("off").toList],
        [("single").toList, ("off").toList], [("random").toList, ("off").toList]]
       ++ (audioFilesSorted dirExampleEnv
            (resolvePath (pyStrip (sgetD
              [((("type").toList), ("dir").toList), ((("path").toList), ("jazz").toList)]
              (("path").toList) [])))).map (fun f => [("add").toList, mpdRelpath f])
       ++ [[("play").toList, intToStr (randint 1 ((3 : ℕ) : ℤ) dirExampleEnv.startChoice)]]) ∧
    1 ≤ randint 1 ((3 : ℕ) : ℤ) dirExampleEnv.startChoice ∧
    randint 1 ((3 : ℕ) : ℤ) dirExampleEnv.startChoice ≤ ((3 : ℕ) : ℤ) := by
  have h := play_dir_sorted_uniform dirExampleEnv dirExampleCatalog 0 1
    [((("type").toList), ("dir").toList), ((("path").toList), ("jazz").toList)]
    (resolvePath (pyStrip (sgetD
      [((("type").toList), ("dir").toList), ((("path").toList), ("jazz").toList)]
      (("path").toList) [])))
    (audioFilesSorted dirExampleEnv
      (resolvePath (pyStrip (sgetD
        [((("type").toList), ("dir").toList), ((("path").toList), ("jazz").toList)]
        (("path").toList) []))))
    3 (by decide) (by decide) (by decide) rfl (by decide) rfl (by decide) (by decide)
  exact ⟨h.1, h.2.2.2.2.1, h.2.2.2.2.2.1⟩

theorem selStep_cases (data : Catalog) (s : LoopState) (x : SwitchSample) :
    ((selStep data s x).playingBank = s.playingBank ∧
     (selStep data s x).playingStation = s.playingStation ∧
     (selStep data s x).stopSince = s.stopSince ∧
     (selStep data s x).dirty = s.dirty) ∨
    ((selStep data s x).stopSince = 0 ∧ (selStep data s x).dirty = true) := by
  simp only [selStep]
  split
  · split
    · split
      · split
        · right
          exact ⟨rfl, rfl⟩
        · left
          exact ⟨rfl, rfl, rfl, rfl⟩
      · left
        exact ⟨rfl, rfl, rfl, rfl⟩
    · left
      exact ⟨rfl, rfl, rfl, rfl⟩
  · left
    exact ⟨rfl, rfl, rfl, rfl⟩

theorem selStep_identity_change (data : Catalog) (s : LoopState) (x : SwitchSample)
    (h : (selStep data s x).playingBank ≠ s.playingBank ∨
         (selStep data s x).playingStation ≠ s.playingStation) :
    (selStep data s x).stopSince = 0 ∧ (selStep data s x).dirty = true := by
  rcases selStep_cases data s x with ⟨hb, hs, _, _⟩ | hg
  · rcases h with h | h
    · exact absurd hb h
    · exact absurd hs h
  · exact hg

theorem playSwitch_toggle_on (data : Catalog) (s : LoopState)
    (hoff : s.playEnabled = false)
    (hdiff : s.curBank ≠ s.playingBank ∨ s.curStation ≠ s.playingStation)
    (hconf : dictTruthy (get_station data s.curBank s.curStation).2 = true) :
    playSwitchStep data s true =
      { s with playEnabled := true, playingBank := s.curBank,
               playingStation := s.curStation } := by
  unfold playSwitchStep
  rw [if_pos (by rw [hoff]; decide), if_pos rfl, if_pos hdiff, if_pos hconf]

/-- C9 counterexample: play is toggled on while the selection (1,1) differs from
    the playback identity (-1,-1) and the station is configured; the identity
    changes to (1,1), yet `stoppedSince` keeps its pending value 7 and the dirty
    flag stays false — the toggle-on path resets neither, contradicting the
    claim that every identity-changing path does. -/
theorem toggle_on_identity_counterexample :
    (playSwitchStep toggleCexCatalog toggleCexState true).playingBank = 1 ∧
    (playSwitchStep toggleCexCatalog toggleCexState true).playingBank ≠
      toggleCexState.playingBank ∧
    (playSwitchStep toggleCexCatalog toggleCexState true).playingStation ≠
      toggleCexState.playingStation ∧
    (playSwitchStep toggleCexCatalog toggleCexState true).stopSince = 7 ∧
    ¬ (playSwitchStep toggleCexCatalog toggleCexState true).stopSince = 0 ∧
    (playSwitchStep toggleCexCatalog toggleCexState true).dirty = false := by
  have h := playSwitch_toggle_on toggleCexCatalog toggleCexState rfl
    (by decide) (by decide)
  rw [h]
  refine ⟨rfl, by decide, by decide, rfl, by norm_num [toggleCexState], rfl⟩

/-- C9 (amended): on the debounced selection-change path every playback-identity
    change resets `stoppedSince` and marks the state dirty; but the
    play-toggled-on path with a differing configured selection updates the
    identity while leaving `stoppedSince` and the dirty flag untouched. -/
theorem identity_change_paths :
    (∀ (data : Catalog) (s : LoopState) (x : SwitchSample),
      (selStep data s x).playingBank ≠ s.playingBank ∨
        (selStep data s x).playingStation ≠ s.playingStation →
      (selStep data s x).stopSince = 0 ∧ (selStep data s x).dirty = true) ∧
    (∀ (data : Catalog) (s : LoopState),
      s.playEnabled = false →
      (s.curBank ≠ s.playingBank ∨ s.curStation ≠ s.playingStation) →
      dictTruthy (get_station data s.curBank s.curStation).2 = true →
      (playSwitchStep data s true).playingBank = s.curBank ∧
      (playSwitchStep data s true).playingStation = s.curStation ∧
      (playSwitchStep data s true).stopSince = s.stopSince ∧
      (playSwitchStep data s true).dirty = s.dirty) := by
  refine ⟨selStep_identity_change, ?_⟩
  intro data s hoff hdiff hconf
  rw [playSwitch_toggle_on data s hoff hdiff hconf]
  exact ⟨rfl, rfl, rfl, rfl⟩

/-- C9 witness: the amended toggle-on behaviour at the counterexample state. -/
theorem identity_change_paths_witness :
    (playSwitchStep toggleCexCatalog toggleCexState true).playingBank =
      toggleCexState.curBank ∧
    (playSwitchStep toggleCexCatalog toggleCexState true).playingStation =
      toggleCexState.curStation ∧
    (playSwitchStep toggleCexCatalog toggleCexState true).stopSince =
      toggleCexState.stopSince ∧
    (playSwitchStep toggleCexCatalog toggleCexState true).dirty =
      toggleCexState.dirty :=
  identity_change_paths.2 toggleCexCatalog toggleCexState rfl (by decide) (by decide)

/-- C10 counterexample: "radio-playx 7 8" is outside the claimed whitelist yet
    is routed to `play_station` — the backend is invoked and no 403 is sent —
    and "radio-play 1" is outside the whitelist yet rejected with HTTP 400
    `command_failed`, not HTTP 403 `forbidden_command`: dispatch is by the
    prefix `radio-play`, not by whitelist membership. -/
theorem command_whitelist_counterexample :
    specCommandWhitelist (pyStrip (("radio-playx 7 8").toList)) = false ∧
    commandRoute (("radio-playx 7 8").toList) = .playStationAct 7 8 ∧
    invokesBackend (commandRoute (("radio-playx 7 8").toList)) = true ∧
    specCommandWhitelist (pyStrip (("radio-play 1").toList)) = false ∧
    commandRoute (("radio-play 1").toList) = .badRequest ∧
    commandHttpStatus (commandRoute (("radio-play 1").toList)) = some 400 ∧
    commandErrorType (commandRoute (("radio-play 1").toList)) =
      some (("command_failed").toList) ∧
    CommandAction.badRequest ≠ CommandAction.forbidden := by decide

/-- C10 (amended): `/command` dispatches on prefixes and exact matches: any
    stripped command that does not start with "radio-play", is not exactly
    "mpc play" or "mpc pause", and does not start with "mpc volume " is
    rejected with HTTP 403 and error_type `forbidden_command` without invoking
    the backend — in particular "sudo shutdown -h now" is never executed — and
    the whitelisted forms are routed to their backend actions. -/
theorem command_prefix_dispatch :
    (∀ raw : PyStr,
      (("radio-play").toList).isPrefixOf (pyStrip raw) = false →
      pyStrip raw ≠ ("mpc play").toList →
      pyStrip raw ≠ ("mpc pause").toList →
      (("mpc volume ").toList).isPrefixOf (pyStrip raw) = false →
      commandRoute raw = .forbidden ∧
      commandHttpStatus (commandRoute raw) = some 403 ∧
      commandErrorType (commandRoute raw) = some (("forbidden_command").toList) ∧
      invokesBackend (commandRoute raw) = false) ∧
    commandRoute (("sudo shutdown -h now").toList) = .forbidden ∧
    invokesBackend (commandRoute (("sudo shutdown -h now").toList)) = false ∧
    commandRoute (("radio-play 3 4").toList) = .playStationAct 3 4 ∧
    commandRoute (("mpc play").toList) = .mpcPlay ∧
    commandRoute (("mpc pause").toList) = .mpcPause ∧
    commandRoute (("mpc volume 50").toList) = .mpcVolume 50 := by
  refine ⟨?_, by decide, by decide, by decide, by decide, by decide, by decide⟩
  intro raw h1 h2 h3 h4
  have hroute : commandRoute raw = .forbidden := by
    unfold commandRoute
    dsimp only
    rw [if_neg (by rw [h1]; exact Bool.false_ne_true),
      if_neg (by simp only [beq_iff_eq]; exact h2),
      if_neg (by simp only [beq_iff_eq]; exact h3),
      if_neg (by rw [h4]; exact Bool.false_ne_true)]
  rw [hroute]
  exact ⟨rfl, rfl, rfl, rfl⟩

/-- C10 witness: an arbitrary shell command is rejected 403 without reaching
    the backend. -/
theorem command_prefix_dispatch_witness :
    commandRoute (("rm -rf /").toList) = .forbidden ∧
    commandHttpStatus (commandRoute (("rm -rf /").toList)) = some 403 ∧
    commandErrorType (commandRoute (("rm -rf /").toList)) =
      some (("forbidden_command").toList) ∧
    invokesBackend (commandRoute (("rm -rf /").toList)) = false :=
  command_prefix_dispatch.1 (("rm -rf /").toList)
    (by decide) (by decide) (by decide) (by decide)
